import Mathlib

/-!
# systimer: timer handle life cycle

A shallow embedding of `source/systimer.c`.  The C file is compiled for one of three
backends (`OS_WINDOWS`, `OS_LINUX`, `OS_WINDOWS_ASYNC`); each backend has its own Lean
  namespace, with the functions keeping their C names.

* Pointers, timer ids and handles are natural numbers, `0` being `NULL` / the invalid id.
* `unsigned int` values are natural numbers; the places where 32-bit wrap-around could
  matter carry an explicit `% 2 ^ 32`.
* The process heap and the table of OS timers are an explicit `World`, together with the
  list of library / OS calls that were made.
* What the OS answers to a call (the pointer returned by `malloc`, the id returned by
  `timeSetEvent`, ...) is an input of the embedded function (`Os`).
-/

namespace Systimer

/-! ## Shared definitions -/

/-- Value of `EINVAL` in `errno.h`. -/
def EINVAL : Int := 22

/-- Value of `ENOMEM` in `errno.h`. -/
def ENOMEM : Int := 12

/-- Width of `unsigned int`. -/
def UINT_SIZE : Nat := 2 ^ 32

/-- Conversion of a 32-bit unsigned value to `int` / `LONG` (two's complement). -/
def to_int32 (v : Nat) : Int :=
  if v % UINT_SIZE < 2 ^ 31 then (v % UINT_SIZE : Nat) else ((v % UINT_SIZE : Nat) : Int) - 2 ^ 32

/-- The expression `-(int)GetLastError()`, negation wrapping in 32 bits. -/
def neg_int32 (v : Nat) : Int :=
  to_int32 ((UINT_SIZE - v % UINT_SIZE) % UINT_SIZE)

/-- A recorded invocation `ctx->callback((systimer_t)ctx, ctx->cbparam)`. -/
structure CallbackCall where
  callback : Nat
  handle : Nat
  param : Nat
deriving DecidableEq, Repr

/-- The C `struct timespec`. -/
structure timespec where
  tv_sec : Int
  tv_nsec : Int
deriving DecidableEq, Repr

/-- The C `struct itimerspec`. -/
structure itimerspec where
  it_interval : timespec
  it_value : timespec
deriving DecidableEq, Repr

/-- One call made to the C library or to the OS, with its arguments (and, where the code
uses it, its result). -/
inductive OsCall where
  | malloc (ret : Nat)
  | free (p : Nat)
  | timeSetEvent (uDelay uResolution dwUser fuEvent ret : Nat)
  | timeKillEvent (id : Nat)
  | timer_create (sival_ptr : Nat) (ret : Int) (timerid : Nat)
  | timer_settime (timerid flags : Nat) (tv : itimerspec) (ret : Int)
  | timer_delete (timerid : Nat)
  | CreateWaitableTimer (ret : Nat)
  | SetWaitableTimer (h : Nat) (due lPeriod : Int) (arg : Nat) (ret : Bool)
  | CloseHandle (h : Nat)
deriving DecidableEq, Repr

/-- Heap, OS timer table and call log.  `C` is the backend's `timer_context_t`, `A` what the
OS remembers about one timer object.  `mem` is raw memory: a block keeps its contents when
it is freed; `live` lists the blocks currently allocated. -/
structure World (C A : Type) where
  mem : Nat → C
  live : List Nat
  timers : List (Nat × A)
  calls : List OsCall

/-- Result of the creation functions: the `int` returned, the value of `*id` afterwards, and
the world afterwards. -/
structure Result (C A : Type) where
  ret : Int
  id : Nat
  world : World C A

namespace World

variable {C A : Type}

/-- Effect of `malloc(sizeof(timer_context_t))` returning `ret`. -/
def malloc (w : World C A) (ret : Nat) : World C A :=
  { w with live := if ret = 0 then w.live else ret :: w.live
           calls := w.calls ++ [OsCall.malloc ret] }

/-- Effect of `free(p)`. -/
def free (w : World C A) (p : Nat) : World C A :=
  { w with live := w.live.filter (fun q => q ≠ p)
           calls := w.calls ++ [OsCall.free p] }

/-- Store of a whole context at address `p` (`memset` followed by the field assignments). -/
def store (w : World C A) (p : Nat) (c : C) : World C A :=
  { w with mem := fun a => if a = p then c else w.mem a }

/-- A new OS timer object `tid`, the OS call that made it being logged. -/
def add_timer (w : World C A) (tid : Nat) (a : A) (call : OsCall) : World C A :=
  { w with timers := (tid, a) :: w.timers
           calls := w.calls ++ [call] }

/-- An OS call that creates nothing (it failed); only logged. -/
def log (w : World C A) (call : OsCall) : World C A :=
  { w with calls := w.calls ++ [call] }

/-- The OS timer object `tid` is destroyed (`timeKillEvent`, `timer_delete`,
`CloseHandle`). -/
def release (w : World C A) (tid : Nat) (call : OsCall) : World C A :=
  { w with timers := w.timers.filter (fun t => t.1 ≠ tid)
           calls := w.calls ++ [call] }

/-- Ids of the live OS timer objects. -/
def timer_ids (w : World C A) : List Nat := w.timers.map Prod.fst

end World

/-! ## Backend `OS_WINDOWS` (multimedia timers and a thread pool) -/

namespace Windows

/-- Value of `TIMER_PERIOD`. -/
def TIMER_PERIOD : Nat := 1000

/-- Value of `TIME_ONESHOT` in `mmsystem.h`. -/
def TIME_ONESHOT : Nat := 0

/-- Value of `TIME_PERIODIC` in `mmsystem.h`. -/
def TIME_PERIODIC : Nat := 1

/-- Value of `TIME_CALLBACK_FUNCTION` in `mmsystem.h`. -/
def TIME_CALLBACK_FUNCTION : Nat := 0

/-- The fields of `TIMECAPS` that the code reads (`g_ctx.tc`). -/
structure TIMECAPS where
  wPeriodMin : Nat
  wPeriodMax : Nat
deriving DecidableEq, Repr

/-- The struct `timer_context_t` under `OS_WINDOWS`. -/
structure timer_context_t where
  callback : Nat
  cbparam : Nat
  timerId : Nat
  period : Nat
  count : Nat
  locked : Int
deriving DecidableEq, Repr

/-- What the OS holds for a multimedia timer: the arguments of `timeSetEvent` (the time
procedure is always `timer_schd_worker`). -/
structure MMTimer where
  uDelay : Nat
  uResolution : Nat
  dwUser : Nat
  fuEvent : Nat
deriving DecidableEq, Repr

/-- Answers of the OS during one `systimer_create`. -/
structure Os where
  malloc : Nat
  timeSetEvent : Nat
deriving DecidableEq, Repr

/-- The part of `timer_thread_worker` before its final `InterlockedDecrement`: the context
afterwards and the callback invocations made.  `h` is the address of `ctx`. -/
def timer_thread_body (tc : TIMECAPS) (h : Nat) (ctx : timer_context_t) :
    timer_context_t × List CallbackCall :=
  if ctx.period > tc.wPeriodMax then
    let calls : List CallbackCall :=
      if ctx.count = ctx.period / TIMER_PERIOD then [⟨ctx.callback, h, ctx.cbparam⟩] else []
    ({ ctx with count := (ctx.count + 1) % UINT_SIZE % ((ctx.period / TIMER_PERIOD + 1) % UINT_SIZE) },
      calls)
  else
    (ctx, [⟨ctx.callback, h, ctx.cbparam⟩])

/-- The function `timer_thread_worker`, run from entry to return. -/
def timer_thread_worker (tc : TIMECAPS) (h : Nat) (ctx : timer_context_t) :
    timer_context_t × List CallbackCall :=
  let r := timer_thread_body tc h ctx
  ({ r.1 with locked := r.1.locked - 1 }, r.2)

/-- The function `timer_schd_worker` (multimedia time procedure), run from entry to return:
the context afterwards and whether `thread_pool_push` was called. -/
def timer_schd_worker (ctx : timer_context_t) : timer_context_t × Bool :=
  let r := ctx.locked + 1
  let ctx1 := { ctx with locked := r }
  if 1 ≠ r then
    ({ ctx1 with locked := ctx1.locked - 1 }, false)
  else
    (ctx1, true)

/-- One OS notification handled to completion with nothing else interleaved:
`timer_schd_worker`, then the pushed work item `timer_thread_worker` if there is one. -/
def deliver (tc : TIMECAPS) (h : Nat) (ctx : timer_context_t) :
    timer_context_t × List CallbackCall :=
  let r := timer_schd_worker ctx
  if r.2 then timer_thread_worker tc h r.1 else (r.1, [])

/-- The context after `n` consecutive notifications, each handled to completion. -/
def run_ticks (tc : TIMECAPS) (h : Nat) : Nat → timer_context_t → timer_context_t
  | 0, ctx => ctx
  | n + 1, ctx => (deliver tc h (run_ticks tc h n ctx)).1

/-- The callback invocations made by native tick number `t` (counted from 1). -/
def tick_calls (tc : TIMECAPS) (h : Nat) (ctx : timer_context_t) (t : Nat) : List CallbackCall :=
  (deliver tc h (run_ticks tc h (t - 1) ctx)).2

/-- The function `systimer_create` under `OS_WINDOWS`.  `id` is the value of `*id` before the
call. -/
def systimer_create (tc : TIMECAPS) (os : Os) (w : World timer_context_t MMTimer)
    (id period : Nat) (oneshot : Int) (callback cbparam : Nat) :
    Result timer_context_t MMTimer :=
  if oneshot ≠ 0 ∧ tc.wPeriodMin > period ∧ period > tc.wPeriodMax then
    ⟨-EINVAL, id, w⟩
  else
    let ctx := os.malloc
    let w1 := w.malloc ctx
    if ctx = 0 then
      ⟨-ENOMEM, id, w1⟩
    else
      let c0 : timer_context_t :=
        { callback := callback, cbparam := cbparam, timerId := 0, period := period, count := 0,
          locked := 0 }
      let w2 := w1.store ctx c0
      let period1 := if period > tc.wPeriodMax then TIMER_PERIOD else period
      let fuEvent := (if oneshot ≠ 0 then TIME_ONESHOT else TIME_PERIODIC) ||| TIME_CALLBACK_FUNCTION
      let call := OsCall.timeSetEvent period1 10 ctx fuEvent os.timeSetEvent
      let w3 :=
        if os.timeSetEvent = 0 then w2.log call
        else w2.add_timer os.timeSetEvent ⟨period1, 10, ctx, fuEvent⟩ call
      let w4 := w3.store ctx { c0 with timerId := os.timeSetEvent }
      if os.timeSetEvent = 0 then
        ⟨-EINVAL, id, w4.free ctx⟩
      else
        ⟨0, ctx, w4⟩

/-- The function `systimer_oneshot`. -/
def systimer_oneshot (tc : TIMECAPS) (os : Os) (w : World timer_context_t MMTimer)
    (id period callback cbparam : Nat) : Result timer_context_t MMTimer :=
  systimer_create tc os w id period 1 callback cbparam

/-- The function `systimer_start`. -/
def systimer_start (tc : TIMECAPS) (os : Os) (w : World timer_context_t MMTimer)
    (id period callback cbparam : Nat) : Result timer_context_t MMTimer :=
  systimer_create tc os w id period 0 callback cbparam

/-- The function `systimer_stop` under `OS_WINDOWS`: the `int` returned and the world
afterwards. -/
def systimer_stop (w : World timer_context_t MMTimer) (id : Nat) :
    Int × World timer_context_t MMTimer :=
  if id = 0 then (-EINVAL, w)
  else
    let ctx := w.mem id
    let w1 := w.release ctx.timerId (OsCall.timeKillEvent ctx.timerId)
    (0, w1.free id)

end Windows

/-! ### The reentrancy guard as an interleaving of atomic steps -/

namespace Windows

/-- Where an activation of `timer_schd_worker` stands.  An activation begins with its
`InterlockedIncrement`, whose result `r` it then holds; it returns after its
`InterlockedDecrement` (`pushed = false`) or after its `thread_pool_push`
(`pushed = true`). -/
inductive SchdPc where
  | incremented (r : Int)
  | returned (pushed : Bool)
deriving DecidableEq, Repr

/-- Where a work item `timer_thread_worker` of the pool stands: pushed and not yet started,
started, past the callback part and before its `InterlockedDecrement`, or ended (the
`InterlockedDecrement` is the last statement of `timer_thread_worker`). -/
inductive WorkPc where
  | queued
  | running
  | called
  | ended
deriving DecidableEq, Repr

/-- State of one timer handle under concurrent notifications. -/
structure Sys where
  ctx : timer_context_t
  schd : List SchdPc
  work : List WorkPc
  calls : List CallbackCall
deriving DecidableEq, Repr

/-- The atomic steps: a notification arrives (a new activation of `timer_schd_worker`
executes its `InterlockedIncrement`); activation `i` of `timer_schd_worker` executes its
next step; work item `j` executes its next step. -/
inductive Step where
  | notify
  | schd (i : Nat)
  | work (j : Nat)
deriving DecidableEq, Repr

/-- One atomic step; `none` when the step is not enabled. -/
def step (tc : TIMECAPS) (h : Nat) (s : Sys) : Step → Option Sys
  | Step.notify =>
    let r := s.ctx.locked + 1
    some { s with ctx := { s.ctx with locked := r }, schd := s.schd ++ [SchdPc.incremented r] }
  | Step.schd i =>
    match s.schd[i]? with
    | some (SchdPc.incremented r) =>
      if 1 ≠ r then
        some { s with ctx := { s.ctx with locked := s.ctx.locked - 1 },
                      schd := s.schd.set i (SchdPc.returned false) }
      else
        some { s with work := s.work ++ [WorkPc.queued],
                      schd := s.schd.set i (SchdPc.returned true) }
    | _ => none
  | Step.work j =>
    match s.work[j]? with
    | some WorkPc.queued => some { s with work := s.work.set j WorkPc.running }
    | some WorkPc.running =>
      let r := timer_thread_body tc h s.ctx
      some { s with ctx := r.1, calls := s.calls ++ r.2, work := s.work.set j WorkPc.called }
    | some WorkPc.called =>
      some { s with ctx := { s.ctx with locked := s.ctx.locked - 1 },
                    work := s.work.set j WorkPc.ended }
    | _ => none

/-- A sequence of atomic steps. -/
def exec (tc : TIMECAPS) (h : Nat) : Sys → List Step → Option Sys
  | s, [] => some s
  | s, a :: as => (step tc h s a).bind (fun s1 => exec tc h s1 as)

/-- The state before any notification. -/
def Sys.init (ctx : timer_context_t) : Sys := ⟨ctx, [], [], []⟩

/-- Whether a work item is queued or running. -/
def WorkPc.active : WorkPc → Bool
  | WorkPc.ended => false
  | _ => true

/-- Whether an activation of `timer_schd_worker` is between its increment and its return. -/
def SchdPc.pending : SchdPc → Bool
  | SchdPc.incremented _ => true
  | SchdPc.returned _ => false

/-- Whether an activation holds the guard: its increment returned 1 and it has not pushed
yet. -/
def SchdPc.holder : SchdPc → Bool
  | SchdPc.incremented r => decide (r = 1)
  | SchdPc.returned _ => false

/-- Number of work items queued or running. -/
def Sys.active (s : Sys) : Nat := s.work.countP WorkPc.active

/-- An activation of `timer_schd_worker` that drops its notification: its increment did not
return 1, and it returns without having pushed. -/
def SchdPc.dropping : SchdPc → Bool
  | SchdPc.incremented r => decide (r ≠ 1)
  | SchdPc.returned pushed => !pushed

/-- The guard invariant: `locked` counts the activations between increment and return plus
the work items queued or running, and at most one of them holds the guard. -/
def Sys.Inv (s : Sys) : Prop :=
  s.ctx.locked = ((s.schd.countP SchdPc.pending : Nat) : Int) + ((s.work.countP WorkPc.active : Nat) : Int) ∧
  s.schd.countP SchdPc.holder + s.work.countP WorkPc.active ≤ 1

/-- Every step that was started has finished. -/
def Sys.quiescent (s : Sys) : Prop :=
  (∀ pc ∈ s.schd, SchdPc.pending pc = false) ∧ (∀ wi ∈ s.work, WorkPc.active wi = false)

end Windows

/-! ## Backend `OS_LINUX` (POSIX timers) -/

namespace Linux

/-- The struct `timer_context_t` under `OS_LINUX`. -/
structure timer_context_t where
  callback : Nat
  cbparam : Nat
  timerId : Nat
  ontshot : Int
deriving DecidableEq, Repr

/-- What the OS holds for a POSIX timer: the `sigev_value.sival_ptr` given to
`timer_create` (the notify function is always `timer_schd_worker`) and the setting given to
`timer_settime`, if any. -/
structure PosixTimer where
  sival_ptr : Nat
  setting : Option itimerspec
deriving DecidableEq, Repr

/-- Answers of the OS during one `systimer_create`. -/
structure Os where
  malloc : Nat
  timer_create : Int
  timerid : Nat
  errno_create : Int
  timer_settime : Int
  errno_settime : Int
deriving DecidableEq, Repr

/-- The function `timer_schd_worker` under `OS_LINUX`: the callback invocations made.  `h` is
`v.sival_ptr`. -/
def timer_schd_worker (h : Nat) (ctx : timer_context_t) : List CallbackCall :=
  [⟨ctx.callback, h, ctx.cbparam⟩]

/-- The callback invocations made when the OS notifies the handle `n` times. -/
def notifications (h : Nat) (ctx : timer_context_t) : Nat → List CallbackCall
  | 0 => []
  | n + 1 => notifications h ctx n ++ timer_schd_worker h ctx

/-- The `struct itimerspec tv` that `systimer_create` computes from `period`. -/
def make_tv (period : Nat) : itimerspec :=
  let it_interval : timespec :=
    { tv_sec := ((period / 1000 : Nat) : Int)
      tv_nsec := (((period % 1000) * 1000000 % UINT_SIZE : Nat) : Int) }
  { it_interval := it_interval
    it_value := { tv_sec := it_interval.tv_sec, tv_nsec := it_interval.tv_nsec } }

/-- The function `systimer_create` under `OS_LINUX`.  As in the source, the argument
`oneshot` is not read. -/
def systimer_create (os : Os) (w : World timer_context_t PosixTimer)
    (id period : Nat) (oneshot : Int) (callback cbparam : Nat) :
    Result timer_context_t PosixTimer :=
  let ctx := os.malloc
  let w1 := w.malloc ctx
  if ctx = 0 then
    ⟨-ENOMEM, id, w1⟩
  else
    let c0 : timer_context_t :=
      { callback := callback, cbparam := cbparam, timerId := 0, ontshot := 0 }
    let w2 := w1.store ctx c0
    let call := OsCall.timer_create ctx os.timer_create os.timerid
    if 0 ≠ os.timer_create then
      ⟨-os.errno_create, id, (w2.log call).free ctx⟩
    else
      let w3 := (w2.add_timer os.timerid ⟨ctx, none⟩ call).store ctx
        { c0 with timerId := os.timerid }
      let tv := make_tv period
      let call2 := OsCall.timer_settime os.timerid 0 tv os.timer_settime
      if 0 ≠ os.timer_settime then
        ⟨-os.errno_settime, id,
          ((w3.log call2).release os.timerid (OsCall.timer_delete os.timerid)).free ctx⟩
      else
        ⟨0, ctx,
          { w3 with timers := w3.timers.map
                      (fun t => if t.1 = os.timerid then (t.1, ⟨t.2.sival_ptr, some tv⟩) else t)
                    calls := w3.calls ++ [call2] }⟩

/-- The function `systimer_oneshot`. -/
def systimer_oneshot (os : Os) (w : World timer_context_t PosixTimer)
    (id period callback cbparam : Nat) : Result timer_context_t PosixTimer :=
  systimer_create os w id period 1 callback cbparam

/-- The function `systimer_start`. -/
def systimer_start (os : Os) (w : World timer_context_t PosixTimer)
    (id period callback cbparam : Nat) : Result timer_context_t PosixTimer :=
  systimer_create os w id period 0 callback cbparam

/-- The function `systimer_stop` under `OS_LINUX`. -/
def systimer_stop (w : World timer_context_t PosixTimer) (id : Nat) :
    Int × World timer_context_t PosixTimer :=
  if id = 0 then (-EINVAL, w)
  else
    let ctx := w.mem id
    let w1 := w.release ctx.timerId (OsCall.timer_delete ctx.timerId)
    (0, w1.free id)

end Linux

/-! ## Backend `OS_WINDOWS_ASYNC` (waitable timers) -/

namespace WindowsAsync

/-- The struct `timer_context_t` under `OS_WINDOWS_ASYNC`. -/
structure timer_context_t where
  callback : Nat
  cbparam : Nat
  timerId : Nat
deriving DecidableEq, Repr

/-- Arguments of a successful `SetWaitableTimer` (the completion routine is always
`timer_schd_worker`, `fResume` is always `FALSE`). -/
structure WaitableSetting where
  due : Int
  lPeriod : Int
  arg : Nat
deriving DecidableEq, Repr

/-- What the OS holds for a waitable timer. -/
structure WaitableTimer where
  setting : Option WaitableSetting
deriving DecidableEq, Repr

/-- Answers of the OS during one `systimer_create`. -/
structure Os where
  malloc : Nat
  CreateWaitableTimer : Nat
  lastError_create : Nat
  SetWaitableTimer : Bool
  lastError_set : Nat
deriving DecidableEq, Repr

/-- The function `timer_schd_worker` of this configuration (the final `#else` of the file):
its body is empty, no callback is invoked. -/
def timer_schd_worker (_param : Nat) : List CallbackCall := []

/-- The value `tv.QuadPart = -10000L * period`: `long` is 32 bits wide on Windows, so the
product is computed in `unsigned long` and then widened. -/
def due_time (period : Nat) : Int :=
  (((UINT_SIZE - 10000) * (period % UINT_SIZE) % UINT_SIZE : Nat) : Int)

/-- The argument `oneshot?0:period`, converted to `LONG`. -/
def repeat_period (oneshot : Int) (period : Nat) : Int :=
  if oneshot ≠ 0 then to_int32 0 else to_int32 period

/-- The function `systimer_create` under `OS_WINDOWS_ASYNC`. -/
def systimer_create (os : Os) (w : World timer_context_t WaitableTimer)
    (id period : Nat) (oneshot : Int) (callback cbparam : Nat) :
    Result timer_context_t WaitableTimer :=
  let ctx := os.malloc
  let w1 := w.malloc ctx
  if ctx = 0 then
    ⟨-ENOMEM, id, w1⟩
  else
    let c0 : timer_context_t := { callback := callback, cbparam := cbparam, timerId := 0 }
    let w2 := w1.store ctx c0
    let call := OsCall.CreateWaitableTimer os.CreateWaitableTimer
    let w3 :=
      (if os.CreateWaitableTimer = 0 then w2.log call
       else w2.add_timer os.CreateWaitableTimer ⟨none⟩ call).store ctx
        { c0 with timerId := os.CreateWaitableTimer }
    if 0 = os.CreateWaitableTimer then
      ⟨neg_int32 os.lastError_create, id, w3.free ctx⟩
    else
      let tv := due_time period
      let call2 := OsCall.SetWaitableTimer os.CreateWaitableTimer tv (repeat_period oneshot period)
        ctx os.SetWaitableTimer
      if !os.SetWaitableTimer then
        ⟨neg_int32 os.lastError_set, id,
          ((w3.log call2).release os.CreateWaitableTimer
            (OsCall.CloseHandle os.CreateWaitableTimer)).free ctx⟩
      else
        ⟨0, ctx,
          { w3 with timers := w3.timers.map
                      (fun t => if t.1 = os.CreateWaitableTimer
                        then (t.1, ⟨some ⟨tv, repeat_period oneshot period, ctx⟩⟩) else t)
                    calls := w3.calls ++ [call2] }⟩

/-- The function `systimer_oneshot`. -/
def systimer_oneshot (os : Os) (w : World timer_context_t WaitableTimer)
    (id period callback cbparam : Nat) : Result timer_context_t WaitableTimer :=
  systimer_create os w id period 1 callback cbparam

/-- The function `systimer_start`. -/
def systimer_start (os : Os) (w : World timer_context_t WaitableTimer)
    (id period callback cbparam : Nat) : Result timer_context_t WaitableTimer :=
  systimer_create os w id period 0 callback cbparam

/-- The function `systimer_stop` under `OS_WINDOWS_ASYNC`. -/
def systimer_stop (w : World timer_context_t WaitableTimer) (id : Nat) :
    Int × World timer_context_t WaitableTimer :=
  if id = 0 then (-EINVAL, w)
  else
    let ctx := w.mem id
    let w1 := w.release ctx.timerId (OsCall.CloseHandle ctx.timerId)
    (0, w1.free id)

end WindowsAsync

/-! ## Concrete inputs used by the evaluations below -/

/-- A world with nothing allocated, no OS timer and no call made; `c` fills the memory. -/
def World.fresh {C A : Type} (c : C) : World C A :=
  { mem := fun _ => c, live := [], timers := [], calls := [] }

namespace Windows

/-- An all-zero context. -/
def zero_ctx : timer_context_t := ⟨0, 0, 0, 0, 0, 0⟩

/-- Capabilities as reported by common hosts: 1 ms to 1000000 ms. -/
def tc_host : TIMECAPS := ⟨1, 1000000⟩

/-- The OS answers: `malloc` returns 4096 and `timeSetEvent` returns timer id 7. -/
def os_ok : Os := ⟨4096, 7⟩

/-- A freshly created periodic context for period 2000000 ms, callback 1, parameter 2. -/
def ctx_2000s : timer_context_t :=
  { callback := 1, cbparam := 2, timerId := 7, period := 2000000, count := 0, locked := 0 }

end Windows

namespace Linux

/-- An all-zero context. -/
def zero_ctx : timer_context_t := ⟨0, 0, 0, 0⟩

/-- The OS answers: `malloc` returns 4096, `timer_create` succeeds with timer id 7,
`timer_settime` succeeds. -/
def os_ok : Os := ⟨4096, 0, 7, 0, 0, 0⟩

end Linux

namespace WindowsAsync

/-- An all-zero context. -/
def zero_ctx : timer_context_t := ⟨0, 0, 0⟩

/-- The OS answers: `malloc` returns 4096, `CreateWaitableTimer` returns handle 7,
`SetWaitableTimer` succeeds. -/
def os_ok : Os := ⟨4096, 7, 0, true, 0⟩

end WindowsAsync

/-! ## Predicates on worlds used to state the resource properties -/

namespace World

variable {C A : Type}

/-- The call that produced `r` left the resources of `w` as they were: same live blocks,
same OS timers, `*id` still `id`, and the contents of every live block untouched. -/
def same_resources (w : World C A) (id : Nat) (r : Result C A) : Prop :=
  r.world.live = w.live ∧ r.world.timers = w.timers ∧ r.id = id ∧
    ∀ q ∈ w.live, r.world.mem q = w.mem q

/-- The call that produced `r` added exactly one block, whose address it wrote to `*id`, and
exactly one OS timer, and touched no block that was live before. -/
def one_more (w : World C A) (r : Result C A) : Prop :=
  r.id ≠ 0 ∧ r.id ∉ w.live ∧ r.world.live = r.id :: w.live ∧
    (∃ t a, t ∉ w.timer_ids ∧ r.world.timers = (t, a) :: w.timers) ∧
    ∀ q ∈ w.live, r.world.mem q = w.mem q

/-- The call `systimer_stop(id)` that produced `r` from `w` returned 0 after exactly the OS
call `call` on the timer `tid` and `free(id)`: the block `id` and the timer `tid` are gone,
every other block and timer is as before, and no memory was written. -/
def stopped (w : World C A) (id tid : Nat) (call : OsCall) (r : Int × World C A) : Prop :=
  r.1 = 0 ∧ r.2.calls = w.calls ++ [call, OsCall.free id] ∧
    id ∉ r.2.live ∧ tid ∉ r.2.timer_ids ∧ r.2.live.length < w.live.length ∧
    (∀ q, q ≠ id → (q ∈ r.2.live ↔ q ∈ w.live)) ∧
    (∀ t, t.1 ≠ tid → (t ∈ r.2.timers ↔ t ∈ w.timers)) ∧
    ∀ q, r.2.mem q = w.mem q

end World

namespace Windows

/-- The world after one successful `systimer_start` (period 100, callback 1, parameter 2):
block 4096 is live and timer 7 is armed. -/
def world1 : World timer_context_t MMTimer :=
  (systimer_start tc_host os_ok (World.fresh zero_ctx) 0 100 1 2).world

end Windows

namespace Linux

/-- The world after one successful `systimer_start` (period 100, callback 1, parameter 2):
block 4096 is live and timer 7 is armed. -/
def world1 : World timer_context_t PosixTimer :=
  (systimer_start os_ok (World.fresh zero_ctx) 0 100 1 2).world

end Linux

namespace WindowsAsync

/-- The world after one successful `systimer_start` (period 100, callback 1, parameter 2):
block 4096 is live and timer 7 is set. -/
def world1 : World timer_context_t WaitableTimer :=
  (systimer_start os_ok (World.fresh zero_ctx) 0 100 1 2).world

end WindowsAsync

namespace Windows

/-- The OS answers: `malloc` returns 8192 and `timeSetEvent` fails (returns 0). -/
def os_arm_fails : Os := ⟨8192, 0⟩

end Windows

namespace Linux

/-- The OS answers: `malloc` returns 8192, `timer_create` succeeds with timer id 9, and
`timer_settime` fails with `errno = 22`. -/
def os_settime_fails : Os := ⟨8192, 0, 9, 0, -1, 22⟩

end Linux

namespace WindowsAsync

/-- The OS answers: `malloc` returns 8192, `CreateWaitableTimer` returns handle 9, and
`SetWaitableTimer` fails with last error 87. -/
def os_set_fails : Os := ⟨8192, 9, 0, false, 87⟩

end WindowsAsync

/-! ## `systimer_stop` and undefined behaviour -/

namespace Windows

end Windows

namespace Linux

end Linux

namespace WindowsAsync

end WindowsAsync

/-! ## Theorems: `OS_WINDOWS` -/

namespace Windows

theorem timer_schd_worker_free (ctx : timer_context_t) (hl : ctx.locked = 0) :
    timer_schd_worker ctx = ({ ctx with locked := 1 }, true) := by
  simp [timer_schd_worker, hl]

theorem deliver_free (tc : TIMECAPS) (h : Nat) (ctx : timer_context_t) (hl : ctx.locked = 0) :
    deliver tc h ctx =
      ({ (timer_thread_body tc h ctx).1 with locked := 0 }, (timer_thread_body tc h ctx).2) := by
  obtain ⟨cb, pa, ti, pe, co, lo⟩ := ctx
  simp only at hl
  subst hl
  rw [deliver, timer_schd_worker_free _ rfl]
  simp only [if_true, timer_thread_worker, timer_thread_body]
  split <;> rfl

/-- Down-sampling counter: after `n` notifications delivered to a fresh long-period context
the counter is `n % (period / 1000 + 1)`, and the guard is free again. -/
theorem run_ticks_long (tc : TIMECAPS) (h : Nat) (ctx : timer_context_t)
    (hp : ctx.period > tc.wPeriodMax) (h32 : ctx.period < UINT_SIZE)
    (hc : ctx.count = 0) (hl : ctx.locked = 0) (n : Nat) :
    run_ticks tc h n ctx = { ctx with count := n % (ctx.period / TIMER_PERIOD + 1) } := by
  obtain ⟨cb, pa, ti, pe, co, lo⟩ := ctx
  simp only at hp h32 hc hl
  subst hc hl
  induction n with
  | zero => simp [run_ticks]
  | succ n ih =>
    have hq : pe / TIMER_PERIOD + 1 < UINT_SIZE := by
      unfold TIMER_PERIOD; unfold UINT_SIZE at *; omega
    have hlt : n % (pe / TIMER_PERIOD + 1) < pe / TIMER_PERIOD + 1 :=
      Nat.mod_lt _ (Nat.succ_pos _)
    rw [run_ticks, ih, deliver_free _ _ _ rfl]
    simp only [timer_thread_body, hp, if_true]
    rw [Nat.mod_eq_of_lt hq, Nat.mod_eq_of_lt (show n % (pe / TIMER_PERIOD + 1) + 1 < UINT_SIZE by omega),
      Nat.add_mod, Nat.mod_mod, ← Nat.add_mod]

/-- On a fresh long-period context, native tick `t` (counted from 1) invokes the callback
exactly when `(t - 1) % (period / 1000 + 1) = period / 1000`. -/
theorem tick_calls_long (tc : TIMECAPS) (h : Nat) (ctx : timer_context_t)
    (hp : ctx.period > tc.wPeriodMax) (h32 : ctx.period < UINT_SIZE)
    (hc : ctx.count = 0) (hl : ctx.locked = 0) (t : Nat) :
    tick_calls tc h ctx t =
      if (t - 1) % (ctx.period / TIMER_PERIOD + 1) = ctx.period / TIMER_PERIOD
      then [⟨ctx.callback, h, ctx.cbparam⟩] else [] := by
  rw [tick_calls, run_ticks_long tc h ctx hp h32 hc hl]
  obtain ⟨cb, pa, ti, pe, co, lo⟩ := ctx
  simp only at hp h32 hc hl
  subst hc hl
  rw [deliver_free _ _ _ rfl]
  simp [timer_thread_body, hp]

/-- Claim C2 fails on the code (off-by-one of the down-sampling counter): on the multimedia
backend with capabilities 1..1000000 ms, a fresh periodic context of period 2000000 ms (`ceil(period / 1000) = 2000`) does not invoke the
callback on native tick 2000 nor on tick 4000; the first two invocations happen on ticks
2001 and 4002, one per `period / 1000 + 1` ticks.  The same on a small instance
(`wPeriodMax = 1000`, period 2000): of the ticks 1..6 only ticks 3 and 6 invoke it. -/
theorem C2_downsampling_multiple_of_tick :
    ctx_2000s.period > tc_host.wPeriodMax ∧
    (ctx_2000s.period + TIMER_PERIOD - 1) / TIMER_PERIOD = 2000 ∧
    tick_calls tc_host 4096 ctx_2000s 2000 = [] ∧
    tick_calls tc_host 4096 ctx_2000s 2001 = [⟨1, 4096, 2⟩] ∧
    tick_calls tc_host 4096 ctx_2000s 4000 = [] ∧
    tick_calls tc_host 4096 ctx_2000s 4002 = [⟨1, 4096, 2⟩] ∧
    [1, 2, 3, 4, 5, 6].map (tick_calls ⟨1, 1000⟩ 4096 ⟨1, 2, 7, 2000, 0, 0⟩) =
      [[], [], [⟨1, 4096, 2⟩], [], [], [⟨1, 4096, 2⟩]] := by
  have hp : ctx_2000s.period > tc_host.wPeriodMax := by decide
  have h32 : ctx_2000s.period < UINT_SIZE := by decide
  refine ⟨hp, by decide, ?_, ?_, ?_, ?_, by decide⟩ <;>
    rw [tick_calls_long tc_host 4096 ctx_2000s hp h32 rfl rfl] <;> decide

/-- Claim C3 fails on the code (the range check is dead): with capabilities 1..1000000 ms,
`systimer_oneshot` does not return
`-EINVAL` for the period 2000000 (above `wPeriodMax`) nor for the period 0 (below
`wPeriodMin`): it calls `malloc` and `timeSetEvent`, and when both succeed it returns 0,
leaves the block allocated and the timer armed, and writes the handle to `*id`. -/
theorem C3_oneshot_out_of_range_accepted :
    tc_host.wPeriodMin ≤ tc_host.wPeriodMax ∧
    (systimer_oneshot tc_host os_ok (World.fresh zero_ctx) 0 2000000 1 2).ret = 0 ∧
    (systimer_oneshot tc_host os_ok (World.fresh zero_ctx) 0 2000000 1 2).id = 4096 ∧
    (systimer_oneshot tc_host os_ok (World.fresh zero_ctx) 0 2000000 1 2).world.live = [4096] ∧
    (systimer_oneshot tc_host os_ok (World.fresh zero_ctx) 0 2000000 1 2).world.timers =
      [(7, ⟨1000, 10, 4096, 0⟩)] ∧
    (systimer_oneshot tc_host os_ok (World.fresh zero_ctx) 0 2000000 1 2).world.calls =
      [OsCall.malloc 4096, OsCall.timeSetEvent 1000 10 4096 0 7] ∧
    (systimer_oneshot tc_host os_ok (World.fresh zero_ctx) 0 0 1 2).ret = 0 ∧
    (systimer_oneshot tc_host os_ok (World.fresh zero_ctx) 0 0 1 2).id = 4096 ∧
    (systimer_oneshot tc_host os_ok (World.fresh zero_ctx) 0 0 1 2).world.calls =
      [OsCall.malloc 4096, OsCall.timeSetEvent 0 10 4096 0 7] := by
  decide

/-- Claim C4 fails on the code: with capabilities 1..1000000 ms, `systimer_oneshot` with period 2000000
returns 0 (success), and when the single notification of the timer is delivered with the
guard free and the queued `timer_thread_worker` runs, the callback is not invoked at all;
the context is left with `count = 1`. -/
theorem C4_oneshot_above_max_never_fires :
    (systimer_oneshot tc_host os_ok (World.fresh zero_ctx) 0 2000000 1 2).ret = 0 ∧
    (systimer_oneshot tc_host os_ok (World.fresh zero_ctx) 0 2000000 1 2).id = 4096 ∧
    (systimer_oneshot tc_host os_ok (World.fresh zero_ctx) 0 2000000 1 2).world.mem 4096 =
      ⟨1, 2, 7, 2000000, 0, 0⟩ ∧
    timer_schd_worker ⟨1, 2, 7, 2000000, 0, 0⟩ = (⟨1, 2, 7, 2000000, 0, 1⟩, true) ∧
    timer_thread_worker tc_host 4096 ⟨1, 2, 7, 2000000, 0, 1⟩ = (⟨1, 2, 7, 2000000, 1, 0⟩, []) ∧
    (deliver tc_host 4096
      ((systimer_oneshot tc_host os_ok (World.fresh zero_ctx) 0 2000000 1 2).world.mem 4096)).2
      = [] := by
  decide

/-- A one-shot timer whose period does not exceed `wPeriodMax` invokes the callback exactly
once, with the handle and the parameter given at creation, when its notification is
delivered with the guard free. -/
theorem oneshot_in_range_fires_once (tc : TIMECAPS) (os : Os)
    (w : World timer_context_t MMTimer) (id period callback cbparam : Nat)
    (hp : period ≤ tc.wPeriodMax)
    (hret : (systimer_oneshot tc os w id period callback cbparam).ret = 0) :
    (deliver tc (systimer_oneshot tc os w id period callback cbparam).id
      ((systimer_oneshot tc os w id period callback cbparam).world.mem
        (systimer_oneshot tc os w id period callback cbparam).id)).2 =
      [⟨callback, (systimer_oneshot tc os w id period callback cbparam).id, cbparam⟩] := by
  have hnp : ¬ period > tc.wPeriodMax := by omega
  unfold systimer_oneshot systimer_create at *
  have hg : ¬ ((1 : Int) ≠ 0 ∧ tc.wPeriodMin > period ∧ period > tc.wPeriodMax) := by
    intro hh; exact hnp hh.2.2
  simp only [hg, if_false] at hret ⊢
  by_cases hm : os.malloc = 0
  · simp [hm, ENOMEM] at hret
  · by_cases ht : os.timeSetEvent = 0
    · simp [hm, ht, EINVAL] at hret
    · simp [hm, ht, World.store, deliver, timer_schd_worker, timer_thread_worker,
        timer_thread_body, hnp]

/-- Claim C6, counterexample: with `wPeriodMin = 5`, `systimer_start` with period 1 succeeds and
the OS timer is armed with period 1, not with 5. -/
theorem C6_counterexample_no_clamp :
    (1 : Nat) < (TIMECAPS.mk 5 1000000).wPeriodMin ∧
    (systimer_start ⟨5, 1000000⟩ os_ok (World.fresh zero_ctx) 0 1 1 2).ret = 0 ∧
    (systimer_start ⟨5, 1000000⟩ os_ok (World.fresh zero_ctx) 0 1 1 2).world.calls =
      [OsCall.malloc 4096, OsCall.timeSetEvent 1 10 4096 1 7] ∧
    ((systimer_start ⟨5, 1000000⟩ os_ok (World.fresh zero_ctx) 0 1 1 2).world.timers.map
      (fun t => t.2.uDelay)) ≠ [(TIMECAPS.mk 5 1000000).wPeriodMin] := by
  decide

/-- Claim C6, amended: for a period below `wPeriodMin` (with `wPeriodMin ≤ wPeriodMax`),
`systimer_start` never rejects the request because of the period: the result is `-ENOMEM`
exactly when `malloc` fails, `-EINVAL` exactly when `timeSetEvent` fails, and 0 otherwise;
and whenever `malloc` succeeds, `timeSetEvent` is called with the requested period itself
as its first argument (periodic flag, resolution 10), the armed timer carrying it. -/
theorem C6_start_below_min_unclamped (tc : TIMECAPS) (os : Os)
    (w : World timer_context_t MMTimer) (id period callback cbparam : Nat)
    (hlt : period < tc.wPeriodMin) (hcap : tc.wPeriodMin ≤ tc.wPeriodMax) :
    (systimer_start tc os w id period callback cbparam).ret =
      (if os.malloc = 0 then -ENOMEM else if os.timeSetEvent = 0 then -EINVAL else 0) ∧
    (os.malloc ≠ 0 →
      OsCall.timeSetEvent period 10 os.malloc TIME_PERIODIC os.timeSetEvent ∈
        (systimer_start tc os w id period callback cbparam).world.calls) ∧
    (os.malloc ≠ 0 → os.timeSetEvent ≠ 0 →
      (systimer_start tc os w id period callback cbparam).world.timers =
        (os.timeSetEvent, ⟨period, 10, os.malloc, TIME_PERIODIC⟩) :: w.timers) := by
  have hnp : ¬ period > tc.wPeriodMax := by omega
  have hfu : (TIME_PERIODIC ||| TIME_CALLBACK_FUNCTION) = TIME_PERIODIC := by decide
  unfold systimer_start systimer_create
  simp only [ne_eq, not_true_eq_false, false_and, if_false, hnp, hfu]
  by_cases hm : os.malloc = 0
  · simp [hm]
  · by_cases ht : os.timeSetEvent = 0
    · simp [hm, ht, World.store, World.free, World.log, World.malloc]
    · simp [hm, ht, World.store, World.add_timer, World.malloc]

/-- Witness for `C6_start_below_min_unclamped`: capabilities 5..1000000 ms and period 1. -/
theorem C6_start_below_min_unclamped_witness :
    ((1 : Nat) < (TIMECAPS.mk 5 1000000).wPeriodMin ∧
      (TIMECAPS.mk 5 1000000).wPeriodMin ≤ (TIMECAPS.mk 5 1000000).wPeriodMax) ∧
    ((systimer_start ⟨5, 1000000⟩ os_ok (World.fresh zero_ctx) 0 1 1 2).ret =
      (if os_ok.malloc = 0 then -ENOMEM else if os_ok.timeSetEvent = 0 then -EINVAL else 0) ∧
    (os_ok.malloc ≠ 0 →
      OsCall.timeSetEvent 1 10 os_ok.malloc TIME_PERIODIC os_ok.timeSetEvent ∈
        (systimer_start ⟨5, 1000000⟩ os_ok (World.fresh zero_ctx) 0 1 1 2).world.calls) ∧
    (os_ok.malloc ≠ 0 → os_ok.timeSetEvent ≠ 0 →
      (systimer_start ⟨5, 1000000⟩ os_ok (World.fresh zero_ctx) 0 1 1 2).world.timers =
        (os_ok.timeSetEvent, ⟨1, 10, os_ok.malloc, TIME_PERIODIC⟩) ::
          (World.fresh zero_ctx : World timer_context_t MMTimer).timers)) :=
  ⟨by decide, C6_start_below_min_unclamped ⟨5, 1000000⟩ os_ok (World.fresh zero_ctx) 0 1 1 2
    (by decide) (by decide)⟩

/-- The range check at the head of `systimer_create` can never succeed when the capability
bounds are ordered: no period is both below `wPeriodMin` and above `wPeriodMax`. -/
theorem range_check_dead (tc : TIMECAPS) (period : Nat) (oneshot : Int)
    (hcap : tc.wPeriodMin ≤ tc.wPeriodMax) :
    ¬ (oneshot ≠ 0 ∧ tc.wPeriodMin > period ∧ period > tc.wPeriodMax) := by
  intro hh
  have h1 := hh.2.1
  have h2 := hh.2.2
  omega

theorem pred_mod_eq_iff_dvd (m t : Nat) (hm : 0 < m) (ht : 1 ≤ t) :
    (t - 1) % m = m - 1 ↔ m ∣ t := by
  obtain ⟨n, rfl⟩ : ∃ n, t = n + 1 := ⟨t - 1, by omega⟩
  rw [Nat.add_sub_cancel, Nat.dvd_iff_mod_eq_zero, Nat.add_mod]
  have hr : n % m < m := Nat.mod_lt _ hm
  rcases Nat.lt_or_ge 1 m with h1 | h1
  · rw [Nat.mod_eq_of_lt h1]
    rcases Nat.lt_or_ge (n % m + 1) m with h2 | h2
    · rw [Nat.mod_eq_of_lt h2]
      omega
    · have h3 : n % m + 1 = m := by omega
      rw [h3, Nat.mod_self]
      omega
  · have h3 : m = 1 := by omega
    subst h3
    simp [Nat.mod_one]

/-- On a fresh long-period context, native tick `t ≥ 1` invokes the callback exactly when
`period / 1000 + 1` divides `t`: one invocation per `period / 1000 + 1` native ticks. -/
theorem tick_calls_long_dvd (tc : TIMECAPS) (h : Nat) (ctx : timer_context_t)
    (hp : ctx.period > tc.wPeriodMax) (h32 : ctx.period < UINT_SIZE)
    (hc : ctx.count = 0) (hl : ctx.locked = 0) (t : Nat) (ht : 1 ≤ t) :
    tick_calls tc h ctx t =
      if (ctx.period / TIMER_PERIOD + 1) ∣ t then [⟨ctx.callback, h, ctx.cbparam⟩] else [] := by
  rw [tick_calls_long tc h ctx hp h32 hc hl]
  have key := pred_mod_eq_iff_dvd (ctx.period / TIMER_PERIOD + 1) t (Nat.succ_pos _) ht
  rw [Nat.add_sub_cancel] at key
  by_cases hd : (ctx.period / TIMER_PERIOD + 1) ∣ t
  · rw [if_pos hd, if_pos (key.mpr hd)]
  · rw [if_neg hd, if_neg (fun e => hd (key.mp e))]

/-- When `TIMER_PERIOD` does not divide the period, `period / 1000 + 1` is
`ceil(period / 1000)`; when it does, it is one more. -/
theorem downsampling_cycle_vs_ceil (period : Nat) :
    (period % TIMER_PERIOD ≠ 0 →
      period / TIMER_PERIOD + 1 = (period + TIMER_PERIOD - 1) / TIMER_PERIOD) ∧
    (period % TIMER_PERIOD = 0 →
      period / TIMER_PERIOD + 1 = (period + TIMER_PERIOD - 1) / TIMER_PERIOD + 1) := by
  unfold TIMER_PERIOD
  constructor <;> intro _ <;> omega

/-! ### The reentrancy guard -/

theorem countP_set_of_getElem? {α : Type} (p : α → Bool) (l : List α) (i : Nat) (a b : α)
    (hi : l[i]? = some a) :
    (l.set i b).countP p + (if p a then 1 else 0) = l.countP p + (if p b then 1 else 0) := by
  induction l generalizing i with
  | nil => simp at hi
  | cons x l ih =>
    cases i with
    | zero =>
      simp only [List.getElem?_cons_zero, Option.some.injEq] at hi
      subst hi
      simp only [List.set_cons_zero, List.countP_cons]
      omega
    | succ i =>
      simp only [List.getElem?_cons_succ] at hi
      have := ih i hi
      simp only [List.set_cons_succ, List.countP_cons]
      omega

theorem holder_le_pending (l : List SchdPc) :
    l.countP SchdPc.holder ≤ l.countP SchdPc.pending := by
  induction l with
  | nil => simp
  | cons x l ih =>
    simp only [List.countP_cons]
    cases x with
    | incremented r =>
      simp only [SchdPc.holder, SchdPc.pending, if_true]
      split <;> omega
    | returned b => simpa [SchdPc.holder, SchdPc.pending] using ih

theorem timer_thread_body_locked (tc : TIMECAPS) (h : Nat) (ctx : timer_context_t) :
    (timer_thread_body tc h ctx).1.locked = ctx.locked := by
  unfold timer_thread_body
  split <;> rfl

theorem Inv_init (ctx : timer_context_t) (hl : ctx.locked = 0) : (Sys.init ctx).Inv := by
  simp [Sys.Inv, Sys.init, hl]

theorem Inv_step (tc : TIMECAPS) (h : Nat) (s s1 : Sys) (a : Step) (hs : s.Inv)
    (hstep : step tc h s a = some s1) : s1.Inv := by
  obtain ⟨hlock, hone⟩ := hs
  have hhp := holder_le_pending s.schd
  cases a with
  | notify =>
    simp only [step, Option.some.injEq] at hstep
    subst hstep
    simp only [Sys.Inv, List.countP_append, List.countP_singleton, SchdPc.pending,
      SchdPc.holder, if_true, decide_eq_true_eq]
    refine ⟨by rw [hlock]; push_cast; omega, ?_⟩
    split
    · rename_i h1
      have : s.ctx.locked = 0 := by omega
      rw [this] at hlock
      omega
    · omega
  | schd i =>
    simp only [step] at hstep
    split at hstep
    · rename_i r hget
      have hp := countP_set_of_getElem? SchdPc.pending s.schd i (SchdPc.incremented r)
      have hh := countP_set_of_getElem? SchdPc.holder s.schd i (SchdPc.incremented r)
      split at hstep
      · rename_i hr
        simp only [Option.some.injEq] at hstep
        subst hstep
        have hp1 := hp (SchdPc.returned false) hget
        have hh1 := hh (SchdPc.returned false) hget
        have hr1 : ¬ r = 1 := fun e => hr e.symm
        simp only [SchdPc.pending, SchdPc.holder, if_true, decide_eq_true_eq, hr1,
          if_false, Bool.false_eq_true] at hp1 hh1
        simp only [Sys.Inv]
        refine ⟨by rw [hlock]; omega, by omega⟩
      · rename_i hr
        simp only [Option.some.injEq] at hstep
        subst hstep
        have hp1 := hp (SchdPc.returned true) hget
        have hh1 := hh (SchdPc.returned true) hget
        have hr1 : r = 1 := by
          by_contra hne
          exact hr (fun e => hne e.symm)
        simp only [SchdPc.pending, SchdPc.holder, if_true, decide_eq_true_eq, hr1,
          if_false, Bool.false_eq_true] at hp1 hh1
        simp only [Sys.Inv, List.countP_append, List.countP_singleton, WorkPc.active, if_true]
        refine ⟨by rw [hlock]; omega, by omega⟩
    · simp at hstep
  | work j =>
    simp only [step] at hstep
    have hw := countP_set_of_getElem? WorkPc.active s.work j
    split at hstep
    · rename_i hget
      simp only [Option.some.injEq] at hstep
      subst hstep
      have hw1 := hw WorkPc.queued WorkPc.running hget
      simp only [WorkPc.active, if_true] at hw1
      simp only [Sys.Inv]
      refine ⟨by rw [hlock]; omega, by omega⟩
    · rename_i hget
      simp only [Option.some.injEq] at hstep
      subst hstep
      have hw1 := hw WorkPc.running WorkPc.called hget
      simp only [WorkPc.active, if_true] at hw1
      simp only [Sys.Inv, timer_thread_body_locked]
      refine ⟨by rw [hlock]; omega, by omega⟩
    · rename_i hget
      simp only [Option.some.injEq] at hstep
      subst hstep
      have hw1 := hw WorkPc.called WorkPc.ended hget
      simp only [WorkPc.active, if_true, if_false, Bool.false_eq_true] at hw1
      simp only [Sys.Inv]
      refine ⟨by rw [hlock]; omega, by omega⟩
    · simp at hstep

theorem Inv_exec (tc : TIMECAPS) (h : Nat) (acts : List Step) (s s1 : Sys) (hs : s.Inv)
    (hexec : exec tc h s acts = some s1) : s1.Inv := by
  induction acts generalizing s with
  | nil =>
    simp only [exec, Option.some.injEq] at hexec
    exact hexec ▸ hs
  | cons a as ih =>
    simp only [exec] at hexec
    cases hst : step tc h s a with
    | none => simp [hst] at hexec
    | some s2 =>
      rw [hst] at hexec
      exact ih s2 (Inv_step tc h s s2 a hs hst) hexec

theorem dropping_step (tc : TIMECAPS) (h : Nat) (s s1 : Sys) (a : Step) (i : Nat) (pc : SchdPc)
    (hget : s.schd[i]? = some pc) (hd : pc.dropping = true)
    (hstep : step tc h s a = some s1) :
    ∃ pc1, s1.schd[i]? = some pc1 ∧ pc1.dropping = true := by
  have hi : i < s.schd.length := by
    rcases Nat.lt_or_ge i s.schd.length with hlt | hge
    · exact hlt
    · rw [List.getElem?_eq_none hge] at hget
      cases hget
  cases a with
  | notify =>
    simp only [step, Option.some.injEq] at hstep
    subst hstep
    exact ⟨pc, by simp only [List.getElem?_append_left hi, hget], hd⟩
  | schd k =>
    simp only [step] at hstep
    split at hstep
    · rename_i r hk
      by_cases hki : k = i
      · subst hki
        rw [hget] at hk
        simp only [Option.some.injEq] at hk
        subst hk
        simp only [SchdPc.dropping, decide_eq_true_eq] at hd
        have hr : (1 : Int) ≠ r := fun e => hd e.symm
        simp only [hr, ne_eq, not_false_eq_true, if_true, Option.some.injEq] at hstep
        subst hstep
        exact ⟨SchdPc.returned false, by simp [List.getElem?_set, hi], rfl⟩
      · split at hstep <;>
        · simp only [Option.some.injEq] at hstep
          subst hstep
          exact ⟨pc, by simp only [List.getElem?_set_ne hki, hget], hd⟩
    · simp at hstep
  | work j =>
    simp only [step] at hstep
    split at hstep <;> first
      | (simp only [Option.some.injEq] at hstep
         subst hstep
         exact ⟨pc, hget, hd⟩)
      | simp at hstep

theorem dropping_exec (tc : TIMECAPS) (h : Nat) (acts : List Step) (s s1 : Sys) (i : Nat)
    (pc : SchdPc) (hget : s.schd[i]? = some pc) (hd : pc.dropping = true)
    (hexec : exec tc h s acts = some s1) :
    ∃ pc1, s1.schd[i]? = some pc1 ∧ pc1.dropping = true := by
  induction acts generalizing s pc with
  | nil =>
    simp only [exec, Option.some.injEq] at hexec
    subst hexec
    exact ⟨pc, hget, hd⟩
  | cons a as ih =>
    simp only [exec] at hexec
    cases hst : step tc h s a with
    | none => simp [hst] at hexec
    | some s2 =>
      rw [hst] at hexec
      obtain ⟨pc2, hget2, hd2⟩ := dropping_step tc h s s2 a i pc hget hd hst
      exact ih s2 pc2 hget2 hd2 hexec

theorem dropping_next (tc : TIMECAPS) (h : Nat) (s s1 : Sys) (i : Nat) (pc : SchdPc)
    (hget : s.schd[i]? = some pc) (hd : pc.dropping = true)
    (hstep : step tc h s (Step.schd i) = some s1) :
    s1.work = s.work ∧ s1.schd[i]? = some (SchdPc.returned false) := by
  have hi : i < s.schd.length := by
    rcases Nat.lt_or_ge i s.schd.length with hlt | hge
    · exact hlt
    · rw [List.getElem?_eq_none hge] at hget
      cases hget
  simp only [step, hget] at hstep
  cases pc with
  | incremented r =>
    simp only [SchdPc.dropping, decide_eq_true_eq] at hd
    have hr : (1 : Int) ≠ r := fun e => hd e.symm
    simp only [hr, ne_eq, not_false_eq_true, if_true, Option.some.injEq] at hstep
    subst hstep
    exact ⟨rfl, by simp [List.getElem?_set, hi]⟩
  | returned b => simp at hstep

theorem notify_while_active (tc : TIMECAPS) (h : Nat) (s s1 : Sys) (hs : s.Inv)
    (hact : 1 ≤ s.active) (hstep : step tc h s Step.notify = some s1) :
    ∃ pc, s1.schd[s.schd.length]? = some pc ∧ pc.dropping = true := by
  simp only [step, Option.some.injEq] at hstep
  subst hstep
  refine ⟨SchdPc.incremented (s.ctx.locked + 1), by simp, ?_⟩
  have hlock := hs.1
  unfold Sys.active at hact
  simp only [SchdPc.dropping, decide_eq_true_eq]
  omega

theorem quiescent_locked (s : Sys) (hs : s.Inv) (hq : s.quiescent) : s.ctx.locked = 0 := by
  have h1 : s.schd.countP SchdPc.pending = 0 := by
    rw [List.countP_eq_zero]
    intro pc hpc
    simp [hq.1 pc hpc]
  have h2 : s.work.countP WorkPc.active = 0 := by
    rw [List.countP_eq_zero]
    intro wi hwi
    simp [hq.2 wi hwi]
  rw [hs.1, h1, h2]
  rfl

/-- Claim C5: reentrancy guard of the multimedia backend.  In every state reached from
`locked = 0` by any interleaving of the atomic steps (arrival of a notification with its
`InterlockedIncrement`, the `InterlockedDecrement` of a dropped notification, the
`thread_pool_push`, start, callback part and final `InterlockedDecrement` of a work item):
(1) at most one work item is queued or running; (2) a notification arriving while a work
item is queued or running never pushes: in every later state its activation is still
waiting with a result other than 1 or has returned without pushing, and its own next step
leaves the work items unchanged; (3) when every activation has returned and every work
item has ended, `locked` is 0. -/
theorem C5_reentrancy_guard (tc : TIMECAPS) (h : Nat) (ctx : timer_context_t)
    (acts : List Step) (s : Sys)
    (hl : ctx.locked = 0) (hexec : exec tc h (Sys.init ctx) acts = some s) :
    s.active ≤ 1 ∧
    (∀ s1 more s2, 1 ≤ s.active → step tc h s Step.notify = some s1 →
      exec tc h s1 more = some s2 →
      (∃ pc, s2.schd[s.schd.length]? = some pc ∧ pc.dropping = true) ∧
      s2.schd[s.schd.length]? ≠ some (SchdPc.returned true) ∧
      ∀ s3, step tc h s2 (Step.schd s.schd.length) = some s3 →
        s3.work = s2.work ∧ s3.schd[s.schd.length]? = some (SchdPc.returned false)) ∧
    (s.quiescent → s.ctx.locked = 0) := by
  have hinv : s.Inv := Inv_exec tc h acts _ s (Inv_init ctx hl) hexec
  refine ⟨?_, ?_, quiescent_locked s hinv⟩
  · have := hinv.2
    unfold Sys.active
    omega
  · intro s1 more s2 hact hn hmore
    obtain ⟨pc, hget, hd⟩ := notify_while_active tc h s s1 hinv hact hn
    obtain ⟨pc2, hget2, hd2⟩ := dropping_exec tc h more s1 s2 _ pc hget hd hmore
    refine ⟨⟨pc2, hget2, hd2⟩, ?_, ?_⟩
    · rw [hget2]
      intro e
      simp only [Option.some.injEq] at e
      subst e
      simp [SchdPc.dropping] at hd2
    · intro s3 h3
      exact dropping_next tc h s2 s3 _ pc2 hget2 hd2 h3

/-- Witness for `C5_reentrancy_guard`: one notification is pushed and its work item started;
the state reached has one running work item. -/
theorem C5_reentrancy_guard_witness :
    ((⟨1, 2, 7, 100, 0, 0⟩ : timer_context_t).locked = 0 ∧
      exec tc_host 4096 (Sys.init ⟨1, 2, 7, 100, 0, 0⟩) [Step.notify, Step.schd 0, Step.work 0] =
        some ⟨⟨1, 2, 7, 100, 0, 1⟩, [SchdPc.returned true], [WorkPc.running], []⟩) ∧
    (Sys.active ⟨⟨1, 2, 7, 100, 0, 1⟩, [SchdPc.returned true], [WorkPc.running], []⟩ ≤ 1 ∧
    (∀ s1 more s2,
      1 ≤ Sys.active ⟨⟨1, 2, 7, 100, 0, 1⟩, [SchdPc.returned true], [WorkPc.running], []⟩ →
      step tc_host 4096 ⟨⟨1, 2, 7, 100, 0, 1⟩, [SchdPc.returned true], [WorkPc.running], []⟩
        Step.notify = some s1 →
      exec tc_host 4096 s1 more = some s2 →
      (∃ pc, s2.schd[[SchdPc.returned true].length]? = some pc ∧ pc.dropping = true) ∧
      s2.schd[[SchdPc.returned true].length]? ≠ some (SchdPc.returned true) ∧
      ∀ s3, step tc_host 4096 s2 (Step.schd [SchdPc.returned true].length) = some s3 →
        s3.work = s2.work ∧
        s3.schd[[SchdPc.returned true].length]? = some (SchdPc.returned false)) ∧
    (Sys.quiescent ⟨⟨1, 2, 7, 100, 0, 1⟩, [SchdPc.returned true], [WorkPc.running], []⟩ →
      (⟨1, 2, 7, 100, 0, 1⟩ : timer_context_t).locked = 0)) :=
  ⟨⟨rfl, by decide⟩,
    C5_reentrancy_guard tc_host 4096 ⟨1, 2, 7, 100, 0, 0⟩
      [Step.notify, Step.schd 0, Step.work 0]
      ⟨⟨1, 2, 7, 100, 0, 1⟩, [SchdPc.returned true], [WorkPc.running], []⟩ rfl (by decide)⟩

/-- A run of the guard model in which a second notification arrives while the work item of
the first is running: it is dropped, the callback is invoked once, and at the end `locked`
is 0 with one work item ended. -/
theorem guard_run_example :
    exec tc_host 4096 (Sys.init ⟨1, 2, 7, 100, 0, 0⟩)
      [Step.notify, Step.schd 0, Step.work 0, Step.notify, Step.work 0, Step.schd 1,
        Step.work 0] =
      some ⟨⟨1, 2, 7, 100, 0, 0⟩, [SchdPc.returned true, SchdPc.returned false],
        [WorkPc.ended], [⟨1, 4096, 2⟩]⟩ := by
  decide

/-- A timer created through `systimer_oneshot` on the multimedia backend is armed with the
flag `TIME_ONESHOT`. -/
theorem oneshot_flag (tc : TIMECAPS) (os : Os) (w : World timer_context_t MMTimer)
    (id period callback cbparam : Nat) (t : Nat × MMTimer)
    (ht : t ∈ (systimer_oneshot tc os w id period callback cbparam).world.timers)
    (hw : t ∉ w.timers) : t.2.fuEvent = TIME_ONESHOT := by
  unfold systimer_oneshot systimer_create at ht
  split at ht
  · exact absurd ht hw
  · by_cases hm : os.malloc = 0
    · simp only [hm, if_true, World.malloc] at ht
      exact absurd ht hw
    · by_cases hz : os.timeSetEvent = 0
      · simp only [hm, hz, if_true, if_false, World.malloc, World.store, World.log,
          World.free] at ht
        exact absurd ht hw
      · simp only [hm, hz, if_false, World.malloc, World.store, World.add_timer,
          List.mem_cons] at ht
        rcases ht with ht | ht
        · subst ht
          rfl
        · exact absurd ht hw

end Windows

/-! ## Theorems: `OS_LINUX` and `OS_WINDOWS_ASYNC` -/

namespace WindowsAsync

/-- A timer created through `systimer_oneshot` on the waitable-timer backend is given the
repeat period 0. -/
theorem oneshot_repeat_period (period : Nat) : repeat_period 1 period = 0 := by
  simp [repeat_period, to_int32, UINT_SIZE]

end WindowsAsync

namespace Linux

/-- On the POSIX backend `systimer_oneshot` and `systimer_start` are the same function: the
argument `oneshot` of `systimer_create` is never read. -/
theorem oneshot_eq_start (os : Os) (w : World timer_context_t PosixTimer)
    (id period callback cbparam : Nat) :
    systimer_oneshot os w id period callback cbparam =
      systimer_start os w id period callback cbparam := rfl

/-- Claim C1 fails on the code of the POSIX backend: `systimer_oneshot` with period 1000
arms the timer with `it_interval = {1, 0}`, which is not zero (the timer repeats every
second), exactly as `systimer_start` does; and `timer_schd_worker` invokes the callback on every
notification, so two notifications give two invocations. -/
theorem C1_linux_oneshot_is_periodic :
    (systimer_oneshot os_ok (World.fresh zero_ctx) 0 1000 1 2).ret = 0 ∧
    (systimer_oneshot os_ok (World.fresh zero_ctx) 0 1000 1 2).id = 4096 ∧
    (systimer_oneshot os_ok (World.fresh zero_ctx) 0 1000 1 2).world.timers =
      [(7, ⟨4096, some ⟨⟨1, 0⟩, ⟨1, 0⟩⟩⟩)] ∧
    (systimer_oneshot os_ok (World.fresh zero_ctx) 0 1000 1 2).world.calls =
      [OsCall.malloc 4096, OsCall.timer_create 4096 0 7,
        OsCall.timer_settime 7 0 ⟨⟨1, 0⟩, ⟨1, 0⟩⟩ 0] ∧
    (make_tv 1000).it_interval ≠ ⟨0, 0⟩ ∧
    (systimer_oneshot os_ok (World.fresh zero_ctx) 0 1000 1 2).world.timers =
      (systimer_start os_ok (World.fresh zero_ctx) 0 1000 1 2).world.timers ∧
    notifications 4096
        ((systimer_oneshot os_ok (World.fresh zero_ctx) 0 1000 1 2).world.mem 4096) 2 =
      [⟨1, 4096, 2⟩, ⟨1, 4096, 2⟩] := by
  decide

/-- Claim C10: for every 32-bit period, the `itimerspec` given to `timer_settime`
(whenever `malloc` and `timer_create` succeed) is `make_tv period`, which represents exactly
`period` milliseconds: `tv_sec * 10^9 + tv_nsec = period * 10^6` with
`0 ≤ tv_nsec < 10^9`; the product `(period % 1000) * 1000000` is below `2^32`; `it_value`
equals `it_interval`; and period 0 gives an all-zero `it_value`. -/
theorem C10_itimerspec_exact (os : Os) (w : World timer_context_t PosixTimer)
    (id period : Nat) (oneshot : Int) (callback cbparam : Nat)
    (h32 : period < 2 ^ 32) (hm : os.malloc ≠ 0) (hc : os.timer_create = 0) :
    OsCall.timer_settime os.timerid 0 (make_tv period) os.timer_settime ∈
      (systimer_create os w id period oneshot callback cbparam).world.calls ∧
    (make_tv period).it_interval.tv_sec * 10 ^ 9 + (make_tv period).it_interval.tv_nsec =
      (period : Int) * 10 ^ 6 ∧
    0 ≤ (make_tv period).it_interval.tv_nsec ∧
    (make_tv period).it_interval.tv_nsec < 10 ^ 9 ∧
    (period % 1000) * 1000000 < 2 ^ 32 ∧
    (make_tv period).it_value = (make_tv period).it_interval ∧
    (period = 0 → (make_tv period).it_value = ⟨0, 0⟩) := by
  have hprod : (period % 1000) * 1000000 < 2 ^ 32 := by
    have := Nat.mod_lt period (show 1000 > 0 by decide)
    omega
  have hmod : (period % 1000) * 1000000 % UINT_SIZE = (period % 1000) * 1000000 :=
    Nat.mod_eq_of_lt hprod
  refine ⟨?_, ?_, ?_, ?_, hprod, rfl, ?_⟩
  · unfold systimer_create
    by_cases hs : os.timer_settime = 0
    · simp [hm, hc, hs, World.store, World.add_timer, World.malloc]
    · have hs2 : ¬ (0 = os.timer_settime) := fun e => hs e.symm
      simp [hm, hc, hs2, World.store, World.add_timer, World.malloc, World.log,
        World.release, World.free]
  · simp only [make_tv, hmod]
    push_cast
    omega
  · simp only [make_tv]
    exact Int.natCast_nonneg _
  · simp only [make_tv, hmod]
    have := Nat.mod_lt period (show 1000 > 0 by decide)
    omega
  · intro h0
    subst h0
    decide

/-- Witness for `C10_itimerspec_exact`: period 4294967295, the largest 32-bit value. -/
theorem C10_itimerspec_exact_witness :
    ((4294967295 : Nat) < 2 ^ 32 ∧ os_ok.malloc ≠ 0 ∧ os_ok.timer_create = 0) ∧
    (OsCall.timer_settime os_ok.timerid 0 (make_tv 4294967295) os_ok.timer_settime ∈
      (systimer_create os_ok (World.fresh zero_ctx) 0 4294967295 0 1 2).world.calls ∧
    (make_tv 4294967295).it_interval.tv_sec * 10 ^ 9 + (make_tv 4294967295).it_interval.tv_nsec =
      ((4294967295 : Nat) : Int) * 10 ^ 6 ∧
    0 ≤ (make_tv 4294967295).it_interval.tv_nsec ∧
    (make_tv 4294967295).it_interval.tv_nsec < 10 ^ 9 ∧
    (4294967295 % 1000) * 1000000 < 2 ^ 32 ∧
    (make_tv 4294967295).it_value = (make_tv 4294967295).it_interval ∧
    ((4294967295 : Nat) = 0 → (make_tv 4294967295).it_value = ⟨0, 0⟩)) :=
  ⟨by decide, C10_itimerspec_exact os_ok (World.fresh zero_ctx) 0 4294967295 0 1 2
    (by decide) (by decide) (by decide)⟩

end Linux

/-! ## Theorems: creation and release of resources, all backends -/

theorem filter_ne_cons_fresh (l : List Nat) (p : Nat) (hp : p ∉ l) :
    (p :: l).filter (fun q => decide (q ≠ p)) = l := by
  rw [List.filter_cons_of_neg (by simp)]
  rw [List.filter_eq_self]
  intro a ha
  simp only [ne_eq, decide_eq_true_eq]
  intro e
  exact hp (e ▸ ha)

theorem filter_timer_cons_fresh {A : Type} (ts : List (Nat × A)) (t : Nat) (a : A)
    (ht : t ∉ ts.map Prod.fst) :
    ((t, a) :: ts).filter (fun x => decide (x.1 ≠ t)) = ts := by
  rw [List.filter_cons_of_neg (by simp)]
  rw [List.filter_eq_self]
  intro x hx
  simp only [ne_eq, decide_eq_true_eq]
  intro e
  exact ht (List.mem_map.mpr ⟨x, hx, e⟩)

theorem mem_store_fresh {C : Type} (m : Nat → C) (l : List Nat) (p : Nat) (c : C) (hp : p ∉ l) :
    ∀ q ∈ l, (fun a => if a = p then c else m a) q = m q := by
  intro q hq
  have : q ≠ p := fun e => hp (e ▸ hq)
  simp [this]

namespace Windows

theorem create_atomic_mm (tc : TIMECAPS) (os : Os) (w : World timer_context_t MMTimer)
    (id period : Nat) (oneshot : Int) (callback cbparam : Nat)
    (hm : os.malloc ∉ w.live) (ht : os.timeSetEvent ∉ w.timer_ids) :
    ((systimer_create tc os w id period oneshot callback cbparam).ret ≠ 0 →
      w.same_resources id (systimer_create tc os w id period oneshot callback cbparam)) ∧
    (w.same_resources id (systimer_create tc os w id period oneshot callback cbparam) ∨
      ((systimer_create tc os w id period oneshot callback cbparam).ret = 0 ∧
        w.one_more (systimer_create tc os w id period oneshot callback cbparam))) := by
  have hfresh : ∀ q ∈ w.live, q ≠ os.malloc := fun q hq e => hm (e ▸ hq)
  by_cases hg : oneshot ≠ 0 ∧ tc.wPeriodMin > period ∧ period > tc.wPeriodMax
  · have hsame : w.same_resources id (systimer_create tc os w id period oneshot callback cbparam) := by
      rw [systimer_create, if_pos hg]
      exact ⟨rfl, rfl, rfl, fun _ _ => rfl⟩
    exact ⟨fun _ => hsame, Or.inl hsame⟩
  · by_cases hz : os.malloc = 0
    · have hsame : w.same_resources id (systimer_create tc os w id period oneshot callback cbparam) := by
        rw [systimer_create, if_neg hg]
        simp only [hz, if_true]
        exact ⟨by simp [World.malloc], rfl, rfl, fun _ _ => rfl⟩
      exact ⟨fun _ => hsame, Or.inl hsame⟩
    · by_cases hts : os.timeSetEvent = 0
      · have hsame : w.same_resources id (systimer_create tc os w id period oneshot callback cbparam) := by
          rw [systimer_create, if_neg hg]
          simp only [hz, hts, if_true, if_false]
          refine ⟨?_, rfl, rfl, ?_⟩
          · simp only [World.free, World.store, World.log, World.malloc, hz, if_false]
            exact filter_ne_cons_fresh w.live os.malloc hm
          · intro q hq
            simp [World.free, World.store, World.log, World.malloc, hfresh q hq]
        exact ⟨fun _ => hsame, Or.inl hsame⟩
      · have hret : (systimer_create tc os w id period oneshot callback cbparam).ret = 0 := by
          rw [systimer_create, if_neg hg]
          simp only [hz, hts, if_false]
        have hone : w.one_more (systimer_create tc os w id period oneshot callback cbparam) := by
          rw [systimer_create, if_neg hg]
          simp only [hz, hts, if_false]
          refine ⟨hz, hm, ?_, ⟨os.timeSetEvent, _, ht, rfl⟩, ?_⟩
          · simp [World.store, World.add_timer, World.malloc, hz]
          · intro q hq
            simp [World.store, World.add_timer, World.malloc, hfresh q hq]
        exact ⟨fun hne => absurd hret hne, Or.inr ⟨hret, hone⟩⟩

end Windows

namespace Linux

theorem create_atomic_posix (os : Os) (w : World timer_context_t PosixTimer)
    (id period : Nat) (oneshot : Int) (callback cbparam : Nat)
    (hm : os.malloc ∉ w.live) (ht : os.timerid ∉ w.timer_ids) :
    ((systimer_create os w id period oneshot callback cbparam).ret ≠ 0 →
      w.same_resources id (systimer_create os w id period oneshot callback cbparam)) ∧
    (w.same_resources id (systimer_create os w id period oneshot callback cbparam) ∨
      ((systimer_create os w id period oneshot callback cbparam).ret = 0 ∧
        w.one_more (systimer_create os w id period oneshot callback cbparam))) := by
  have hfresh : ∀ q ∈ w.live, q ≠ os.malloc := fun q hq e => hm (e ▸ hq)
  by_cases hz : os.malloc = 0
  · have hsame : w.same_resources id (systimer_create os w id period oneshot callback cbparam) := by
      simp only [systimer_create, hz, if_true]
      exact ⟨by simp [World.malloc], rfl, rfl, fun _ _ => rfl⟩
    exact ⟨fun _ => hsame, Or.inl hsame⟩
  · by_cases hc : 0 ≠ os.timer_create
    · have hsame : w.same_resources id (systimer_create os w id period oneshot callback cbparam) := by
        rw [systimer_create]
        simp only [hz, if_false]
        rw [if_pos hc]
        refine ⟨?_, rfl, rfl, ?_⟩
        · simp only [World.free, World.store, World.log, World.malloc, hz, if_false]
          exact filter_ne_cons_fresh w.live os.malloc hm
        · intro q hq
          simp [World.free, World.store, World.log, World.malloc, hfresh q hq]
      exact ⟨fun _ => hsame, Or.inl hsame⟩
    · by_cases hs : 0 ≠ os.timer_settime
      · have hsame : w.same_resources id (systimer_create os w id period oneshot callback cbparam) := by
          rw [systimer_create]
          simp only [hz, if_false]
          rw [if_neg hc]
          rw [if_pos hs]
          refine ⟨?_, ?_, rfl, ?_⟩
          · simp only [World.free, World.store, World.log, World.malloc, World.release,
              World.add_timer, hz, if_false]
            exact filter_ne_cons_fresh w.live os.malloc hm
          · simp only [World.free, World.store, World.log, World.malloc, World.release,
              World.add_timer]
            exact filter_timer_cons_fresh w.timers os.timerid _ ht
          · intro q hq
            simp [World.free, World.store, World.log, World.malloc, World.release,
              World.add_timer, hfresh q hq]
        exact ⟨fun _ => hsame, Or.inl hsame⟩
      · have hret : (systimer_create os w id period oneshot callback cbparam).ret = 0 := by
          rw [systimer_create]
          simp only [hz, if_false]
          rw [if_neg hc]
          rw [if_neg hs]
        have hone : w.one_more (systimer_create os w id period oneshot callback cbparam) := by
          rw [systimer_create]
          simp only [hz, if_false]
          rw [if_neg hc]
          rw [if_neg hs]
          have hmap : ∀ ts : List (Nat × PosixTimer), os.timerid ∉ ts.map Prod.fst →
              ts.map (fun t => if t.1 = os.timerid
                then (t.1, (⟨t.2.sival_ptr, some (make_tv period)⟩ : PosixTimer)) else t) = ts := by
            intro ts
            induction ts with
            | nil => intro _; rfl
            | cons x xs ih =>
              intro hts
              simp only [List.map_cons, List.mem_cons, not_or] at hts
              have hx : x.1 ≠ os.timerid := fun e => hts.1 e.symm
              simp only [List.map_cons, hx, if_false, ih hts.2]
          refine ⟨hz, hm, ?_, ⟨os.timerid, ⟨os.malloc, some (make_tv period)⟩, ht, ?_⟩, ?_⟩
          · simp [World.store, World.add_timer, World.malloc, hz]
          · simp only [World.store, World.add_timer, World.malloc, List.map_cons, if_true]
            rw [hmap w.timers ht]
          · intro q hq
            simp [World.store, World.add_timer, World.malloc, hfresh q hq]
        exact ⟨fun hne => absurd hret hne, Or.inr ⟨hret, hone⟩⟩

end Linux

namespace WindowsAsync

theorem create_atomic_waitable (os : Os) (w : World timer_context_t WaitableTimer)
    (id period : Nat) (oneshot : Int) (callback cbparam : Nat)
    (hm : os.malloc ∉ w.live) (ht : os.CreateWaitableTimer ∉ w.timer_ids) :
    ((systimer_create os w id period oneshot callback cbparam).ret ≠ 0 →
      w.same_resources id (systimer_create os w id period oneshot callback cbparam)) ∧
    (w.same_resources id (systimer_create os w id period oneshot callback cbparam) ∨
      ((systimer_create os w id period oneshot callback cbparam).ret = 0 ∧
        w.one_more (systimer_create os w id period oneshot callback cbparam))) := by
  have hfresh : ∀ q ∈ w.live, q ≠ os.malloc := fun q hq e => hm (e ▸ hq)
  by_cases hz : os.malloc = 0
  · have hsame : w.same_resources id (systimer_create os w id period oneshot callback cbparam) := by
      simp only [systimer_create, hz, if_true]
      exact ⟨by simp [World.malloc], rfl, rfl, fun _ _ => rfl⟩
    exact ⟨fun _ => hsame, Or.inl hsame⟩
  · by_cases hc : os.CreateWaitableTimer = 0
    · have hsame : w.same_resources id (systimer_create os w id period oneshot callback cbparam) := by
        simp only [systimer_create, hz, hc, if_true, if_false]
        refine ⟨?_, rfl, rfl, ?_⟩
        · simp only [World.free, World.store, World.log, World.malloc, hz, if_false]
          exact filter_ne_cons_fresh w.live os.malloc hm
        · intro q hq
          simp [World.free, World.store, World.log, World.malloc, hfresh q hq]
      exact ⟨fun _ => hsame, Or.inl hsame⟩
    · have hc2 : ¬ (0 = os.CreateWaitableTimer) := fun e => hc e.symm
      cases hs : os.SetWaitableTimer with
      | false =>
        have hsame : w.same_resources id (systimer_create os w id period oneshot callback cbparam) := by
          simp only [systimer_create, hz, hc, hc2, hs, if_true, if_false, Bool.not_false]
          refine ⟨?_, ?_, rfl, ?_⟩
          · simp only [World.free, World.store, World.log, World.malloc, World.release,
              World.add_timer, hz, if_false]
            exact filter_ne_cons_fresh w.live os.malloc hm
          · simp only [World.free, World.store, World.log, World.malloc, World.release,
              World.add_timer]
            exact filter_timer_cons_fresh w.timers os.CreateWaitableTimer _ ht
          · intro q hq
            simp [World.free, World.store, World.log, World.malloc, World.release,
              World.add_timer, hfresh q hq]
        exact ⟨fun _ => hsame, Or.inl hsame⟩
      | true =>
        have hret : (systimer_create os w id period oneshot callback cbparam).ret = 0 := by
          simp only [systimer_create, hz, hc, hc2, hs, if_false, Bool.not_true,
            Bool.false_eq_true]
        have hone : w.one_more (systimer_create os w id period oneshot callback cbparam) := by
          simp only [systimer_create, hz, hc, hc2, hs, if_false, Bool.not_true,
            Bool.false_eq_true]
          have hmap : ∀ ts : List (Nat × WaitableTimer),
              os.CreateWaitableTimer ∉ ts.map Prod.fst →
              ts.map (fun t => if t.1 = os.CreateWaitableTimer
                then (t.1, (⟨some ⟨due_time period, repeat_period oneshot period, os.malloc⟩⟩ :
                  WaitableTimer)) else t) = ts := by
            intro ts
            induction ts with
            | nil => intro _; rfl
            | cons x xs ih =>
              intro hts
              simp only [List.map_cons, List.mem_cons, not_or] at hts
              have hx : x.1 ≠ os.CreateWaitableTimer := fun e => hts.1 e.symm
              simp only [List.map_cons, hx, if_false, ih hts.2]
          refine ⟨hz, hm, ?_, ⟨os.CreateWaitableTimer,
            ⟨some ⟨due_time period, repeat_period oneshot period, os.malloc⟩⟩, ht, ?_⟩, ?_⟩
          · simp [World.store, World.add_timer, World.malloc, hz]
          · simp only [World.store, World.add_timer, World.malloc, List.map_cons, if_true]
            rw [hmap w.timers ht]
          · intro q hq
            simp [World.store, World.add_timer, World.malloc, hfresh q hq]
        exact ⟨fun hne => absurd hret hne, Or.inr ⟨hret, hone⟩⟩

end WindowsAsync

/-- Claim C7: creation is atomic on failure, on the three backends.  When `malloc`
returns `NULL` or a block that is not live and the OS returns a timer id that is not in
use, `systimer_create` (hence `systimer_start` and `systimer_oneshot`, which pass
`oneshot = 0` and `1`) either returns 0 having added exactly one block and one OS timer and
written the block to `*id`, or leaves the live blocks, their contents, the OS timers and
`*id` as they were; and a non-zero return value is always of the second kind. -/
theorem C7_create_atomic (tc : Windows.TIMECAPS)
    (osW : Windows.Os) (wW : World Windows.timer_context_t Windows.MMTimer)
    (osL : Linux.Os) (wL : World Linux.timer_context_t Linux.PosixTimer)
    (osA : WindowsAsync.Os) (wA : World WindowsAsync.timer_context_t WindowsAsync.WaitableTimer)
    (id period : Nat) (oneshot : Int) (callback cbparam : Nat)
    (hmW : osW.malloc ∉ wW.live) (htW : osW.timeSetEvent ∉ wW.timer_ids)
    (hmL : osL.malloc ∉ wL.live) (htL : osL.timerid ∉ wL.timer_ids)
    (hmA : osA.malloc ∉ wA.live) (htA : osA.CreateWaitableTimer ∉ wA.timer_ids) :
    (((Windows.systimer_create tc osW wW id period oneshot callback cbparam).ret ≠ 0 →
        wW.same_resources id (Windows.systimer_create tc osW wW id period oneshot callback cbparam)) ∧
      (wW.same_resources id (Windows.systimer_create tc osW wW id period oneshot callback cbparam) ∨
        ((Windows.systimer_create tc osW wW id period oneshot callback cbparam).ret = 0 ∧
          wW.one_more (Windows.systimer_create tc osW wW id period oneshot callback cbparam)))) ∧
    (((Linux.systimer_create osL wL id period oneshot callback cbparam).ret ≠ 0 →
        wL.same_resources id (Linux.systimer_create osL wL id period oneshot callback cbparam)) ∧
      (wL.same_resources id (Linux.systimer_create osL wL id period oneshot callback cbparam) ∨
        ((Linux.systimer_create osL wL id period oneshot callback cbparam).ret = 0 ∧
          wL.one_more (Linux.systimer_create osL wL id period oneshot callback cbparam)))) ∧
    (((WindowsAsync.systimer_create osA wA id period oneshot callback cbparam).ret ≠ 0 →
        wA.same_resources id (WindowsAsync.systimer_create osA wA id period oneshot callback cbparam)) ∧
      (wA.same_resources id (WindowsAsync.systimer_create osA wA id period oneshot callback cbparam) ∨
        ((WindowsAsync.systimer_create osA wA id period oneshot callback cbparam).ret = 0 ∧
          wA.one_more (WindowsAsync.systimer_create osA wA id period oneshot callback cbparam)))) :=
  ⟨Windows.create_atomic_mm tc osW wW id period oneshot callback cbparam hmW htW,
    Linux.create_atomic_posix osL wL id period oneshot callback cbparam hmL htL,
    WindowsAsync.create_atomic_waitable osA wA id period oneshot callback cbparam hmA htA⟩

/-- Witness for `C7_create_atomic`: in worlds that already hold one live handle, a creation
whose arming step fails (`timeSetEvent`, `timer_settime`, `SetWaitableTimer`) returns a
non-zero code and leaves the resources as they were. -/
theorem C7_create_atomic_witness :
    (Windows.os_arm_fails.malloc ∉ Windows.world1.live ∧
      Windows.os_arm_fails.timeSetEvent ∉ Windows.world1.timer_ids ∧
      Linux.os_settime_fails.malloc ∉ Linux.world1.live ∧
      Linux.os_settime_fails.timerid ∉ Linux.world1.timer_ids ∧
      WindowsAsync.os_set_fails.malloc ∉ WindowsAsync.world1.live ∧
      WindowsAsync.os_set_fails.CreateWaitableTimer ∉ WindowsAsync.world1.timer_ids) ∧
    ((Windows.systimer_create Windows.tc_host Windows.os_arm_fails Windows.world1 0 100 1 1 2).ret
        = -22 ∧
      Windows.world1.same_resources 0
        (Windows.systimer_create Windows.tc_host Windows.os_arm_fails Windows.world1 0 100 1 1 2)) ∧
    ((Linux.systimer_create Linux.os_settime_fails Linux.world1 0 100 1 1 2).ret = -22 ∧
      Linux.world1.same_resources 0
        (Linux.systimer_create Linux.os_settime_fails Linux.world1 0 100 1 1 2)) ∧
    ((WindowsAsync.systimer_create WindowsAsync.os_set_fails WindowsAsync.world1 0 100 1 1 2).ret
        = -87 ∧
      WindowsAsync.world1.same_resources 0
        (WindowsAsync.systimer_create WindowsAsync.os_set_fails WindowsAsync.world1 0 100 1 1 2)) :=
  have key := C7_create_atomic Windows.tc_host Windows.os_arm_fails Windows.world1
    Linux.os_settime_fails Linux.world1 WindowsAsync.os_set_fails WindowsAsync.world1
    0 100 1 1 2 (by decide) (by decide) (by decide) (by decide) (by decide) (by decide)
  ⟨by decide, ⟨by decide, key.1.1 (by decide)⟩, ⟨by decide, key.2.1.1 (by decide)⟩,
    ⟨by decide, key.2.2.1 (by decide)⟩⟩

/-! ## Theorems: `systimer_stop` -/

theorem stopped_of_eq {C A : Type} (w : World C A) (id tid : Nat) (call : OsCall)
    (hlive : id ∈ w.live) :
    w.stopped id tid call (0, (w.release tid call).free id) := by
  refine ⟨rfl, by simp [World.free, World.release], ?_, ?_, ?_, ?_, ?_, fun _ => rfl⟩
  · simp [World.free, World.release]
  · simp [World.free, World.release, World.timer_ids]
  · simp only [World.free, World.release]
    rw [List.length_filter_lt_length_iff_exists]
    exact ⟨id, hlive, by simp⟩
  · intro q hq
    simp [World.free, World.release, hq]
  · intro t ht
    simp [World.free, World.release, ht]

/-- Claim C8: on the three backends, `systimer_stop` of the null handle returns
`-EINVAL` and leaves the world as it is (no OS call, no `free`); `systimer_stop` of a
non-null live handle returns 0 after exactly the release call of the backend on the timer
id stored in the handle followed by `free` of the handle: that block and that timer are
gone, every other block, every other timer and all memory contents are untouched. -/
theorem C8_stop_null_and_live
    (wW : World Windows.timer_context_t Windows.MMTimer)
    (wL : World Linux.timer_context_t Linux.PosixTimer)
    (wA : World WindowsAsync.timer_context_t WindowsAsync.WaitableTimer)
    (id : Nat) (hid : id ≠ 0)
    (hW : id ∈ wW.live) (hL : id ∈ wL.live) (hA : id ∈ wA.live) :
    (Windows.systimer_stop wW 0 = (-EINVAL, wW) ∧
      wW.stopped id (wW.mem id).timerId (OsCall.timeKillEvent (wW.mem id).timerId)
        (Windows.systimer_stop wW id)) ∧
    (Linux.systimer_stop wL 0 = (-EINVAL, wL) ∧
      wL.stopped id (wL.mem id).timerId (OsCall.timer_delete (wL.mem id).timerId)
        (Linux.systimer_stop wL id)) ∧
    (WindowsAsync.systimer_stop wA 0 = (-EINVAL, wA) ∧
      wA.stopped id (wA.mem id).timerId (OsCall.CloseHandle (wA.mem id).timerId)
        (WindowsAsync.systimer_stop wA id)) := by
  refine ⟨⟨rfl, ?_⟩, ⟨rfl, ?_⟩, ⟨rfl, ?_⟩⟩
  · rw [Windows.systimer_stop, if_neg hid]
    exact stopped_of_eq wW id _ _ hW
  · rw [Linux.systimer_stop, if_neg hid]
    exact stopped_of_eq wL id _ _ hL
  · rw [WindowsAsync.systimer_stop, if_neg hid]
    exact stopped_of_eq wA id _ _ hA

/-- Witness for `C8_stop_null_and_live`: the handle 4096 created by `systimer_start` in each
backend. -/
theorem C8_stop_null_and_live_witness :
    ((4096 : Nat) ≠ 0 ∧ 4096 ∈ Windows.world1.live ∧ 4096 ∈ Linux.world1.live ∧
      4096 ∈ WindowsAsync.world1.live) ∧
    ((Windows.systimer_stop Windows.world1 0 = (-EINVAL, Windows.world1) ∧
      Windows.world1.stopped 4096 (Windows.world1.mem 4096).timerId
        (OsCall.timeKillEvent (Windows.world1.mem 4096).timerId)
        (Windows.systimer_stop Windows.world1 4096)) ∧
    (Linux.systimer_stop Linux.world1 0 = (-EINVAL, Linux.world1) ∧
      Linux.world1.stopped 4096 (Linux.world1.mem 4096).timerId
        (OsCall.timer_delete (Linux.world1.mem 4096).timerId)
        (Linux.systimer_stop Linux.world1 4096)) ∧
    (WindowsAsync.systimer_stop WindowsAsync.world1 0 = (-EINVAL, WindowsAsync.world1) ∧
      WindowsAsync.world1.stopped 4096 (WindowsAsync.world1.mem 4096).timerId
        (OsCall.CloseHandle (WindowsAsync.world1.mem 4096).timerId)
        (WindowsAsync.systimer_stop WindowsAsync.world1 4096))) :=
  ⟨by decide, C8_stop_null_and_live Windows.world1 Linux.world1 WindowsAsync.world1 4096
    (by decide) (by decide) (by decide) (by decide)⟩

namespace Windows

end Windows

namespace Linux

end Linux

namespace WindowsAsync

end WindowsAsync

end Systimer
